import Mathlib

/-!
Verification development for the `effector` repository: a shallow embedding
of the global feature-effect classes (`GlobalEffect`, `RHALE`,
`SHAPDependence`), the legacy `feature_effect.ale` module and the legacy
`pythia.helpers` module, together with theorems settling the frozen claims
about them.

Modelling conventions:
* Python floats are modelled as `ℚ`; 1-D arrays as `List ℚ`, 2-D arrays as
  `List (List ℚ)` (row major).
* Fallible Python code is modelled in the `Except PyErr` monad; each
  `PyErr` constructor stands for the Python exception class of the same name.
* Dictionaries keyed by `"feature_" + str(i)` are modelled as maps keyed by
  the feature index `i` (the key is in bijection with the index).
* External collaborators that are not part of the sources
  (`numpy` reductions, `scipy` splines, the `shap` explainer, the random
  subsampler) are passed in as explicit function parameters, i.e. oracles,
  so every theorem quantifies over their behaviour.
-/

/-- Python exception classes raised by the embedded code. -/
inductive PyErr where
  | attributeError
  | assertionError
  | typeError
  | keyError
  | indexError
  | notImplementedError
  deriving DecidableEq, Repr

/-- String literals used as Python values in the sources. -/
def sAll : String := "all"

def sFixed : String := "fixed"

def sGreedy : String := "greedy"

def sDp : String := "dp"

def sZeroIntegral : String := "zero_integral"

def sZeroStart : String := "zero_start"

def sFixedSize : String := "fixed-size"

def sFoo : String := "foo"

/-- A Python value as it appears in the legacy parameter dictionaries:
an int, a string, a bool, or None. -/
inductive PyV where
  | pyint (n : ℤ)
  | pystr (s : String)
  | pybool (b : Bool)
  | pynone
  deriving DecidableEq, Repr

/-- Python `type(v) == int` (note `type(True) == int` is False in Python,
since the type of True is bool). -/
def PyV.isInt : PyV → Bool
  | .pyint _ => true
  | _ => false

/-- The legacy fit-parameter dictionary of `pythia.helpers`, restricted to
the four keys the function reads or writes; `none` models an absent key.
Any other key of the Python dict is neither read nor written, so it is not
modelled. -/
structure DaleParams where
  bin_method : Option PyV
  nof_bins : Option PyV
  max_nof_bins : Option PyV
  min_points_per_bin : Option PyV
  deriving DecidableEq, Repr

/-- src/pythia/helpers.py, `prep_dale_fit_params` (lines 44-68).
The argument may be None (modelled by the outer `Option`), in which case an
empty dict is used.  Each `assert` that fails raises AssertionError.
Note the fourth block is translated exactly as written in the source: when
the key `"min_points_per_bin"` is present it asserts
`type(par["max_nof_bins"]) == int` (reading `max_nof_bins`, not
`min_points_per_bin`). -/
def prep_dale_fit_params (par : Option DaleParams) : Except PyErr DaleParams := do
  let p := par.getD ⟨none, none, none, none⟩
  let p ← match p.bin_method with
    | some v =>
        if v = .pystr sFixed ∨ v = .pystr sGreedy ∨ v = .pystr sDp then
          Except.ok p
        else
          Except.error .assertionError
    | none => Except.ok { p with bin_method := some (.pystr sFixed) }
  let p ← match p.nof_bins with
    | some v => if v.isInt then Except.ok p else Except.error .assertionError
    | none => Except.ok { p with nof_bins := some (.pyint 100) }
  let p ← match p.max_nof_bins with
    | some v => if v.isInt then Except.ok p else Except.error .assertionError
    | none => Except.ok { p with max_nof_bins := some (.pyint 20) }
  let p ← match p.min_points_per_bin with
    | some _ =>
        match p.max_nof_bins with
        | some v => if v.isInt then Except.ok p else Except.error .assertionError
        | none => Except.error .keyError
    | none => Except.ok { p with min_points_per_bin := some .pynone }
  Except.ok p

/-- A Python value that is a bool or a string: the shape of the
`centering`, `heterogeneity`/`uncertainty` and `confidence_interval` flag
arguments of the effector methods. -/
inductive PyBoolStr where
  | pybool (b : Bool)
  | pystr (s : String)
  deriving DecidableEq, Repr

/-- src/effector/global_effect.py, `GlobalEffect.refit` (lines 112-121).
`is_fitted` is the per-feature numpy bool vector; `method_args` maps a
feature index to the recorded `{"centering": ...}` entry (`none` models a
missing dict key, whose access raises KeyError).  `centering is not False`
is the Python identity test, true for every value other than the False
singleton; `!=` is structural inequality. -/
def refit (is_fitted : List Bool) (method_args : ℕ → Option PyBoolStr)
    (feature : ℕ) (centering : PyBoolStr) : Except PyErr Bool := do
  let fitted ← match is_fitted.get? feature with
    | some b => Except.ok b
    | none => Except.error .indexError
  if fitted = false then
    Except.ok true
  else
    if centering ≠ .pybool false then
      match method_args feature with
      | none => Except.error .keyError
      | some recorded =>
          if recorded ≠ centering then Except.ok true else Except.ok false
    else
      Except.ok false

/-- A dynamically typed Python value, rich enough to embed the constructor
arguments of `GlobalEffect`, `RHALE` and `SHAPDependence`: None, bool, int,
float, str, a 1-D or 2-D numpy array, or a model callable mapping the
design matrix to the vector of predictions. -/
inductive PyVal where
  | pynone
  | pybool (b : Bool)
  | pyint (n : ℤ)
  | pyfloat (q : ℚ)
  | pystr (s : String)
  | arr1 (xs : List ℚ)
  | arr2 (xss : List (List ℚ))
  | pyfunc (f : List (List ℚ) → List ℚ)

/-- Python attribute access `v.ndim`: numpy arrays have it, every other
value (None, numbers, strings, callables) raises AttributeError. -/
def PyVal.ndim : PyVal → Except PyErr ℕ
  | .arr1 _ => Except.ok 1
  | .arr2 _ => Except.ok 2
  | _ => Except.error .attributeError

/-- Minimum of a list, taking the first element as the seed (numpy `.min()`
of an empty array raises; the empty case is modelled as 0 and is never
reached by the theorems below). -/
def listMin : List ℚ → ℚ
  | [] => 0
  | x :: xs => xs.foldl min x

/-- Maximum of a list, taking the first element as the seed. -/
def listMax : List ℚ → ℚ
  | [] => 0
  | x :: xs => xs.foldl max x

/-- Column `j` of a row-major 2-D array (rows are assumed rectangular;
numpy would raise IndexError on a too-short row, modelled by the default
value 0 which the theorems never rely on). -/
def column (xss : List (List ℚ)) (j : ℕ) : List ℚ :=
  xss.map (fun r => r.getD j 0)

/-- Mean of a vector, `np.mean`: sum divided by length (0 on the empty
vector, where numpy yields nan). -/
def listMean (xs : List ℚ) : ℚ :=
  xs.sum / (xs.length : ℚ)

/-- src/pythia/helpers.py lines 34-41 (the effector twin is not under
src/, the spec describes both at once): per-column minimum and maximum of
the dataset, as (row of minima, row of maxima). -/
def axis_limits_from_data (xss : List (List ℚ)) : List ℚ × List ℚ :=
  (((List.range (xss.headD []).length).map (fun d => listMin (column xss d))),
   ((List.range (xss.headD []).length).map (fun d => listMax (column xss d))))

/-- Numpy fancy indexing `xss[idxs, :]`: select the listed rows, raising
IndexError on an out-of-range index. -/
def fancyRows (xss : List (List ℚ)) (idxs : List ℕ) :
    Except PyErr (List (List ℚ)) :=
  idxs.mapM (fun i =>
    match xss.get? i with
    | some r => Except.ok r
    | none => Except.error .indexError)

/-- Modelled from the spec: `effector.helpers.prep_nof_instances` is not
under src/.  Spec section 4.5: on the string "all" use every row in order;
on an integer smaller than N draw that many distinct indices uniformly at
random without replacement (the draw is the oracle `pick`); any other type
is InvalidInput.  An integer at least N is not specified by the spec and is
modelled as keeping every row. -/
def prep_nof_instances (pick : ℕ → ℕ → List ℕ) (nof_instances : PyVal)
    (n : ℕ) : Except PyErr (ℕ × List ℕ) :=
  match nof_instances with
  | .pystr s =>
      if s = sAll then Except.ok (n, List.range n) else Except.error .typeError
  | .pyint k =>
      if 0 ≤ k ∧ k.toNat < n then Except.ok (k.toNat, pick k.toNat n)
      else Except.ok (n, List.range n)
  | _ => Except.error .typeError

/-- The state written by `GlobalEffect.__init__`.  The two per-feature
dictionaries start empty; effect records are abstracted to `Unit` at the
base level (each subclass stores its own record type). -/
structure GlobalEffectBase where
  method_name : PyVal
  nof_instances : ℕ
  indices : List ℕ
  data : List (List ℚ)
  dim : ℕ
  model : PyVal
  avg_output : PyVal
  axis_limits : PyVal
  feature_names : PyVal
  target_name : PyVal
  is_fitted : List Bool
  method_args : ℕ → Option PyBoolStr
  feature_effect : ℕ → Option Unit

/-- src/effector/global_effect.py, `GlobalEffect.__init__` (lines 11-90),
with its exact positional parameter order: method_name, data, model,
nof_instances, axis_limits, avg_output, feature_names, target_name.
Steps: assert `data.ndim == 2`; select the instance subset; slice the data;
compute `np.mean(model(data))` when avg_output is None (calling a
non-callable raises TypeError), else keep the given value; compute the axis
limits from the sliced data when axis_limits is None, else keep the given
value; mark every feature unfitted; start with empty method_args and
feature_effect dictionaries. -/
def globalEffectInit (pick : ℕ → ℕ → List ℕ)
    (method_name data model nof_instances axis_limits avg_output
      feature_names target_name : PyVal) : Except PyErr GlobalEffectBase := do
  let nd ← data.ndim
  if nd ≠ 2 then Except.error .assertionError else do
  let xss ← match data with
    | .arr2 xss => Except.ok xss
    | _ => Except.error .assertionError
  let (nof, idxs) ← prep_nof_instances pick nof_instances xss.length
  let sliced ← fancyRows xss idxs
  let dim := (sliced.headD []).length
  let avg ← match avg_output with
    | .pynone =>
        match model with
        | .pyfunc f => Except.ok (PyVal.pyfloat (listMean (f sliced)))
        | _ => Except.error .typeError
    | v => Except.ok v
  let al ← match axis_limits with
    | .pynone =>
        Except.ok (PyVal.arr2
          [(axis_limits_from_data sliced).1, (axis_limits_from_data sliced).2])
    | v => Except.ok v
  Except.ok
    { method_name := method_name
      nof_instances := nof
      indices := idxs
      data := sliced
      dim := dim
      model := model
      avg_output := avg
      axis_limits := al
      feature_names := feature_names
      target_name := target_name
      is_fitted := List.replicate dim false
      method_args := fun _ => none
      feature_effect := fun _ => none }

/-- The state of a freshly constructed `RHALE` object: the two attributes
set before the super call, plus the base state. -/
structure RhaleInitState where
  model_jac : PyVal
  data_effect : PyVal
  base : GlobalEffectBase

/-- src/effector/global_effect_rhale.py, `RHALE.__init__` (lines 11-84):
stores model_jac and data_effect, then calls `GlobalEffect.__init__` with
the six positional arguments `(data, model, axis_limits, avg_output,
feature_names, target_name)` — one short of the parent signature, so they
bind to `(method_name, data, model, nof_instances, axis_limits,
avg_output)` and the parent parameters feature_names and target_name keep
their default None. -/
def rhaleInit (pick : ℕ → ℕ → List ℕ)
    (data model model_jac axis_limits data_effect avg_output feature_names
      target_name : PyVal) : Except PyErr RhaleInitState := do
  let base ← globalEffectInit pick data model axis_limits avg_output
    feature_names target_name .pynone .pynone
  Except.ok { model_jac := model_jac, data_effect := data_effect, base := base }

/-- src/effector/global_effect_shap.py, `SHAPDependence.__init__`
(lines 13-85): calls `GlobalEffect.__init__` with the six positional
arguments `(data, model, axis_limits, avg_output, feature_names,
target_name)`, which bind to `(method_name, data, model, nof_instances,
axis_limits, avg_output)` of the parent signature. -/
def shapInit (pick : ℕ → ℕ → List ℕ)
    (data model axis_limits avg_output feature_names target_name : PyVal) :
    Except PyErr GlobalEffectBase :=
  globalEffectInit pick data model axis_limits avg_output feature_names
    target_name .pynone .pynone

/-- The normalized centering mode produced by `prep_centering`. -/
inductive Centering where
  | noCenter
  | zeroIntegral
  | zeroStart
  deriving DecidableEq, Repr

/-- src/pythia/helpers.py lines 14-21 (the effector twin is not under src/
and the spec section 4.5 describes both at once): assert the argument is a
bool or one of the two recognized strings, and normalize True to
"zero_integral".  False stays False, modelled as `noCenter`. -/
def prep_centering : PyBoolStr → Except PyErr Centering
  | .pybool true => Except.ok .zeroIntegral
  | .pybool false => Except.ok .noCenter
  | .pystr s =>
      if s = sZeroIntegral then Except.ok .zeroIntegral
      else if s = sZeroStart then Except.ok .zeroStart
      else Except.error .assertionError

/-- The recorded centering mode written into `method_args`, as the Python
value it is stored as (False, "zero_integral" or "zero_start"). -/
def Centering.toPy : Centering → PyBoolStr
  | .noCenter => .pybool false
  | .zeroIntegral => .pystr sZeroIntegral
  | .zeroStart => .pystr sZeroStart

/-- The `features` argument of the effector fit methods: "all", a single
index, or an index list. -/
inductive FeaturesArg where
  | all
  | idx (i : ℕ)
  | flist (is : List ℕ)
  deriving DecidableEq, Repr

/-- src/pythia/helpers.py lines 5-11 (the effector twin is not under src/,
spec section 4.5): "all" becomes every index below the dimension, an int
becomes a one-element list, a list passes through unchanged. -/
def prep_features (features : FeaturesArg) (dim : ℕ) : List ℕ :=
  match features with
  | .all => List.range dim
  | .idx i => [i]
  | .flist is => is

/-- The bin-statistics record produced by `effector.utils.compute_ale_params`
(spec section 4.2): ordered bin edges, per-bin mean local effect, per-bin
population variance, per-bin estimator variance, and the bin widths. -/
structure AleParamsRec where
  limits : List ℚ
  bin_effect : List ℚ
  bin_variance : List ℚ
  bin_estimator_variance : List ℚ
  dx : List ℚ

/-- The local effect values falling in the bin `[lo, hi)` — the last bin is
closed on the right. `pts` pairs each feature value with its effect. -/
def binMembers (pts : List (ℚ × ℚ)) (lo hi : ℚ) (lastBin : Bool) : List ℚ :=
  (pts.filter (fun p =>
    decide (lo ≤ p.1) && (decide (p.1 < hi) || (lastBin && decide (p.1 = hi))))).map
    (fun p => p.2)

/-- Population variance of a list of values (0 on the empty list, where
numpy yields nan). -/
def listVariance (xs : List ℚ) : ℚ :=
  listMean (xs.map (fun x => (x - listMean xs) * (x - listMean xs)))

/-- Consecutive pairs of a list: `pairsOf [a, b, c] = [(a, b), (b, c)]`. -/
def pairsOf : List ℚ → List (ℚ × ℚ)
  | a :: b :: rest => (a, b) :: pairsOf (b :: rest)
  | _ => []

/-- Modelled from the spec: `effector.utils.compute_ale_params` is not
under src/.  Spec section 4.2, bin-statistics computation: given the
feature column `xs`, the per-instance local effects `dxs` and the bin
edges, compute per bin the mean local effect, the population variance of
the local effect, and the variance of the mean-effect estimator (population
variance divided by the bin point count), together with the bin widths. -/
def compute_ale_params (xs dxs : List ℚ) (limits : List ℚ) : AleParamsRec :=
  let pts := xs.zip dxs
  let k := limits.length - 1
  let binsOf := fun (f : List ℚ → ℚ) =>
    (List.range k).map (fun i =>
      f (binMembers pts (limits.getD i 0) (limits.getD (i + 1) 0) (i + 1 = k)))
  { limits := limits
    bin_effect := binsOf listMean
    bin_variance := binsOf listVariance
    bin_estimator_variance :=
      binsOf (fun es => listVariance es / (es.length : ℚ))
    dx := (pairsOf limits).map (fun p => p.2 - p.1) }

/-- The binning strategy selector of `RHALE.fit`. -/
inductive BinningMethod where
  | fixed
  | greedy
  | dynamic
  deriving DecidableEq, Repr

/-- The collaborators of the RHALE code that live outside src/:
`effector.utils.compute_jacobian_numerically` (spec section 4.2, numeric
Jacobian) and `effector.binning_methods.find_limits` (spec section 4.3,
uniform binning entry point whose result field `.limits` is either the
ordered edge array or the failure marker False, modelled as `Option`). -/
structure RhaleOracles where
  numJac : (List (List ℚ) → List ℚ) → List (List ℚ) → List (List ℚ)
  find_limits : List (List ℚ) → List (List ℚ) → ℕ → List (ℚ × ℚ) →
    BinningMethod → Option (List ℚ)

/-- The mutable state of an RHALE object, as the methods `compile`,
`_fit_feature` and `fit` read and write it.  `axis_limits` is stored as the
per-feature pair (lower, upper).  The Python object has no `norm_const`
attribute and no `_compute_norm_const` method: no class in the sources
defines either, which is why the centering branch of `fit` below raises
AttributeError. -/
structure RhaleState where
  data : List (List ℚ)
  data_effect : Option (List (List ℚ))
  model : List (List ℚ) → List ℚ
  model_jac : Option (List (List ℚ) → List (List ℚ))
  axis_limits : List (ℚ × ℚ)
  dim : ℕ
  is_fitted : List Bool
  method_args : ℕ → Option PyBoolStr
  feature_effect : ℕ → Option AleParamsRec

/-- src/effector/global_effect_rhale.py, `RHALE.compile` (lines 86-92):
materialize the per-instance derivatives once, from `model_jac` when
supplied, else numerically. -/
def rhaleCompile (o : RhaleOracles) (st : RhaleState) : RhaleState :=
  match st.data_effect, st.model_jac with
  | none, some j => { st with data_effect := some (j st.data) }
  | none, none => { st with data_effect := some (o.numJac st.model st.data) }
  | some _, _ => st

/-- Numpy boolean-mask row selection `rows[mask, :]`: raises IndexError
when the mask length differs from the number of rows. -/
def maskRows (mask : List Bool) (rows : List (List ℚ)) :
    Except PyErr (List (List ℚ)) :=
  if mask.length = rows.length then
    Except.ok (((mask.zip rows).filter (fun p => p.1)).map (fun p => p.2))
  else
    Except.error .indexError

/-- Row lookup in the per-feature axis-limits table. -/
def getAxis (axis_limits : List (ℚ × ℚ)) (feature : ℕ) :
    Except PyErr (ℚ × ℚ) :=
  match axis_limits.get? feature with
  | some p => Except.ok p
  | none => Except.error .indexError

/-- src/effector/global_effect_rhale.py, `RHALE._fit_feature`
(lines 94-129), step by step:
lazily compile the data effect; reassign `self.data` twice, keeping only
rows whose feature value is at or above the lower limit and then at or
below the upper limit; recompute the in-limits boolean mask on the
already-filtered `self.data`; apply that mask to the filtered data and to
the UNfiltered `self.data_effect` (numpy raises IndexError when the mask
length differs from the row count, i.e. whenever the first two filters
dropped a row); ask the binning strategy for edges and assert the result is
not the failure marker; compute the bin statistics.  Returns the updated
state (with the mutated `self.data`) and the parameter record. -/
def rhaleFitFeature (o : RhaleOracles) (st : RhaleState) (feature : ℕ)
    (bm : BinningMethod) : Except PyErr (RhaleState × AleParamsRec) := do
  let st := rhaleCompile o st
  let de ← match st.data_effect with
    | some d => Except.ok d
    | none => Except.error .attributeError
  let (lo, hi) ← getAxis st.axis_limits feature
  let d1 := st.data.filter (fun row => decide (lo ≤ row.getD feature 0))
  let d2 := d1.filter (fun row => decide (row.getD feature 0 ≤ hi))
  let ind := d2.map (fun row =>
    decide (lo ≤ row.getD feature 0) && decide (row.getD feature 0 ≤ hi))
  let data ← maskRows ind d2
  let data_effect ← maskRows ind de
  let limits ← match o.find_limits data data_effect feature st.axis_limits bm with
    | some ls => Except.ok ls
    | none => Except.error .assertionError
  let params := compute_ale_params (column data feature)
    (column data_effect feature) limits
  Except.ok ({ st with data := d2 }, params)

/-- Numpy bool-vector element assignment `is_fitted[s] = True`: raises
IndexError out of range. -/
def setFitted (l : List Bool) (i : ℕ) : Except PyErr (List Bool) :=
  if i < l.length then Except.ok (l.set i true) else Except.error .indexError

/-- The per-feature loop body of `RHALE.fit` (lines 157-166): store the
effect record; when centering was requested execute
`self.norm_const[s] = self._compute_norm_const(s, method=centering)`, whose
attribute lookup raises AttributeError because `_compute_norm_const` is
defined by no class in the sources; mark the feature fitted; record the
centering mode. -/
def rhaleFitLoop (o : RhaleOracles) (bm : BinningMethod) (cc : Centering) :
    RhaleState → List ℕ → Except PyErr RhaleState
  | st, [] => Except.ok st
  | st, s :: rest => do
      let (st1, params) ← rhaleFitFeature o st s bm
      let st2 := { st1 with
        feature_effect := fun n =>
          if n = s then some params else st1.feature_effect n }
      if cc ≠ .noCenter then Except.error .attributeError else do
      let fitted ← setFitted st2.is_fitted s
      rhaleFitLoop o bm cc
        { st2 with
          is_fitted := fitted
          method_args := fun n =>
            if n = s then some cc.toPy else st2.method_args n }
        rest

/-- src/effector/global_effect_rhale.py, `RHALE.fit` (lines 131-166):
normalize the feature selector and the centering mode, then run the
per-feature loop. -/
def rhaleFit (o : RhaleOracles) (st : RhaleState) (features : FeaturesArg)
    (bm : BinningMethod) (centering : PyBoolStr) : Except PyErr RhaleState := do
  let cc ← prep_centering centering
  rhaleFitLoop o bm cc st (prep_features features st.dim)

/-- The value returned by an eval method: the mean curve alone, or the
triple (mean, std, std-err). -/
inductive EvalResult where
  | single (y : List ℚ)
  | triple (y std stderr : List ℚ)

/-- src/effector/global_effect.py, `GlobalEffect.eval` (lines 123-166):
the entire body after the docstring is `raise NotImplementedError`. -/
def globalEffectEval (feature : ℕ) (xs : List ℚ) (heterogeneity : Bool)
    (centering : PyBoolStr) : Except PyErr EvalResult :=
  Except.error .notImplementedError

/-- `RHALE` overrides `fit` and `plot` but not `eval`, so attribute lookup
on an RHALE object resolves `eval` to `GlobalEffect.eval`
(src/effector/global_effect_rhale.py defines `_eval_unnorm` at lines
168-189, but nothing reachable from `eval` calls it). -/
def rhaleEval (st : RhaleState) (feature : ℕ) (xs : List ℚ)
    (heterogeneity : Bool) (centering : PyBoolStr) : Except PyErr EvalResult :=
  globalEffectEval feature xs heterogeneity centering

/-- More string literals used by the SHAP code paths. -/
def sStd : String := "std"

def sStdErr : String := "std_err"

def sShapValues : String := "shap_values"

/-- A points-count argument: the string "all" or an int. -/
inductive NofPoints where
  | allPts
  | pts (n : ℕ)
  deriving DecidableEq, Repr

/-- Modelled from the spec: the `prep_nof_instances` call used by the SHAP
fitting code with an already well-typed "all"-or-int argument (spec section
4.5); `pick k n` is the random draw of k distinct indices below n. -/
def prepNofPoints (pick : ℕ → ℕ → List ℕ) (p : NofPoints) (n : ℕ) :
    ℕ × List ℕ :=
  match p with
  | .allPts => (n, List.range n)
  | .pts k => if k < n then (k, pick k n) else (n, List.range n)

/-- `np.linspace a b n`: n evenly spaced points from a to b inclusive
(for n = 1 the single point a, matching numpy, since division by zero is 0
in ℚ). -/
def linspace (a b : ℚ) (n : ℕ) : List ℚ :=
  (List.range n).map (fun i => a + i * (b - a) / ((n : ℚ) - 1))

/-- `np.trapz y x`: the trapezoid-rule integral of the sampled curve,
the sum over consecutive samples of (x2 - x1) * (y1 + y2) / 2. -/
def trapz : List ℚ → List ℚ → ℚ
  | y1 :: y2 :: ys, x1 :: x2 :: xs =>
      (x2 - x1) * (y1 + y2) / 2 + trapz (y2 :: ys) (x2 :: xs)
  | _, _ => 0

/-- The ordering on (feature value, SHAP value) pairs used to sort by
feature value. -/
def byFst (a b : ℚ × ℚ) : Prop := a.1 ≤ b.1

instance : DecidableRel byFst := fun a b =>
  inferInstanceAs (Decidable (a.1 ≤ b.1))

instance : IsTotal (ℚ × ℚ) byFst := ⟨fun a b => le_total a.1 b.1⟩

instance : IsTrans (ℚ × ℚ) byFst := ⟨fun _ _ _ h1 h2 => le_trans h1 h2⟩

/-- Sorting the (feature value, SHAP value) pairs by feature value: the
model of `idx = np.argsort(xx); xx = xx[idx]; yy = yy[idx]`. -/
def sortByFst (l : List (ℚ × ℚ)) : List (ℚ × ℚ) :=
  List.insertionSort byFst l

/-- `xs[0]`: IndexError on an empty array. -/
def listHead : List ℚ → Except PyErr ℚ
  | [] => Except.error .indexError
  | x :: _ => Except.ok x

/-- `xs[-1]`: IndexError on an empty array. -/
def listLast (xs : List ℚ) : Except PyErr ℚ :=
  match xs.getLast? with
  | some x => Except.ok x
  | none => Except.error .indexError

/-- 1-D numpy fancy indexing `xs[idx]`. -/
def fancyVals (xs : List ℚ) (idxs : List ℕ) : Except PyErr (List ℚ) :=
  idxs.mapM (fun i =>
    match xs.get? i with
    | some v => Except.ok v
    | none => Except.error .indexError)

/-- The collaborators of the SHAP code that live outside src/ (spec
section 6): the permutation explainer (given the model and the background
data, per-instance per-feature attribution values), the univariate
smoothing-spline fitter (given monotonic x and y samples, a callable
curve), and the random index draw used for subsampling. -/
structure ShapOracles where
  shapValues : (List (List ℚ) → List ℚ) → List (List ℚ) → List (List ℚ)
  spline : List ℚ → List ℚ → (ℚ → ℚ)
  pick : ℕ → ℕ → List ℕ

/-- The per-feature record stored by `SHAPDependence._fit_feature`:
the mean spline, the residual-std spline, the sorted raw (x, SHAP value)
pairs, and the norm constant, where `none` models the empty-value sentinel
`helpers.EMPTY_SYMBOL`. -/
structure ShapFeatureRecord where
  spline_mean : ℚ → ℚ
  spline_std : ℚ → ℚ
  xx : List ℚ
  yy : List ℚ
  norm_const : Option ℚ

/-- The state of a SHAPDependence object as its methods read and write it. -/
structure ShapState where
  data : List (List ℚ)
  model : List (List ℚ) → List ℚ
  axis_limits : List (ℚ × ℚ)
  dim : ℕ
  avg_output : ℚ
  is_fitted : List Bool
  feature_effect : ℕ → Option ShapFeatureRecord

/-- src/effector/global_effect_shap.py, `SHAPDependence._fit_feature`
(lines 87-121), the part before the norm-constant computation: keep the
rows at or above the LOWER axis limit (the upper limit is not checked in
the source); subsample `points_for_fitting_spline` of them (the unused
`ind_cent` draw of the source is dropped, it binds to nothing); compute
SHAP values for the kept rows; sort the (feature value, SHAP value) pairs
by feature value; fit the mean spline and then the std spline to the
absolute residuals.  Returns (xx, yy, spline_mean, spline_std). -/
def shapFitCore (o : ShapOracles) (st : ShapState) (feature : ℕ)
    (pfs : NofPoints) : Except PyErr (List ℚ × List ℚ × (ℚ → ℚ) × (ℚ → ℚ)) := do
  let ax ← getAxis st.axis_limits feature
  let d1 := st.data.filter (fun row => decide (ax.1 ≤ row.getD feature 0))
  let ind_shap := (prepNofPoints o.pick pfs d1.length).2
  let d2 ← fancyRows d1 ind_shap
  let yy := column (o.shapValues st.model d2) feature
  let xx := column d2 feature
  let sorted := sortByFst (xx.zip yy)
  let xx := sorted.map (fun p => p.1)
  let yy := sorted.map (fun p => p.2)
  let spline_mean := o.spline xx yy
  let yy_std := List.zipWith (fun x y => |y - spline_mean x|) xx yy
  let spline_std := o.spline xx yy_std
  Except.ok (xx, yy, spline_mean, spline_std)

/-- src/effector/global_effect_shap.py, `SHAPDependence._fit_feature`
(lines 87-140): the core above followed by the norm-constant computation.
With centering "zero_integral": the trapezoid integral of the mean spline
over a `points_used_for_centering`-point linspace from xx[0] to xx[-1],
divided by xx[-1] - xx[0].  With "zero_start": the mean spline at xx[0].
Otherwise the empty-value sentinel. -/
def shapFitFeature (o : ShapOracles) (st : ShapState) (feature : ℕ)
    (cc : Centering) (pfs pfc : NofPoints) : Except PyErr ShapFeatureRecord := do
  let (xx, yy, sm, ss) ← shapFitCore o st feature pfs
  let norm ← match cc with
    | .zeroIntegral => do
        let x0 ← listHead xx
        let xl ← listLast xx
        let cnt ← match pfc with
          | .pts k => Except.ok k
          | .allPts => Except.error .typeError
        let grid := linspace x0 xl cnt
        Except.ok (some (trapz (grid.map sm) grid / (xl - x0)))
    | .zeroStart => do
        let x0 ← listHead xx
        Except.ok (some (sm x0))
    | .noCenter => Except.ok none
  Except.ok
    { spline_mean := sm, spline_std := ss, xx := xx, yy := yy, norm_const := norm }

/-- The per-feature loop body of `SHAPDependence.fit` (lines 190-194):
store the effect record, then mark the feature fitted.  Unlike RHALE, the
SHAP fit records nothing in method_args. -/
def shapFitLoop (o : ShapOracles) (cc : Centering) (pfs pfc : NofPoints) :
    ShapState → List ℕ → Except PyErr ShapState
  | st, [] => Except.ok st
  | st, s :: rest => do
      let r ← shapFitFeature o st s cc pfs pfc
      let fitted ← setFitted st.is_fitted s
      shapFitLoop o cc pfs pfc
        { st with
          feature_effect := fun n => if n = s then some r else st.feature_effect n
          is_fitted := fitted }
        rest

/-- src/effector/global_effect_shap.py, `SHAPDependence.fit`
(lines 142-194): normalize the centering mode and the feature selector,
then run the per-feature loop. -/
def shapFit (o : ShapOracles) (st : ShapState) (features : FeaturesArg)
    (centering : PyBoolStr) (pfs pfc : NofPoints) : Except PyErr ShapState := do
  let cc ← prep_centering centering
  shapFitLoop o cc pfs pfc st (prep_features features st.dim)

/-- The outcome of `SHAPDependence.eval`: the updated object state, whether
the refit branch was taken (instrumentation recording that `self.fit` was
called), and the returned value. -/
structure ShapEvalOut where
  state : ShapState
  refitted : Bool
  result : EvalResult

/-- Numpy bool-vector element read `is_fitted[feature]`: IndexError out of
range. -/
def getFitted (is_fitted : List Bool) (feature : ℕ) : Except PyErr Bool :=
  match is_fitted.get? feature with
  | some b => Except.ok b
  | none => Except.error .indexError

/-- The dict read `self.feature_effect["feature_" + str(feature)]`:
KeyError when the entry is absent. -/
def getRecord (st : ShapState) (feature : ℕ) : Except PyErr ShapFeatureRecord :=
  match st.feature_effect feature with
  | some r => Except.ok r
  | none => Except.error .keyError

/-- The refit condition of `SHAPDependence.eval` (lines 225-229):
`not self.is_fitted[feature] or
self.feature_effect[...]["norm_const"] == helpers.EMPTY_SYMBOL and
centering is not False` — Python groups `and` tighter than `or`, and the
short-circuit `or` reads the record only when the feature is fitted. -/
def shapNeedsRefit (st : ShapState) (feature : ℕ) (cc : Centering) :
    Except PyErr Bool := do
  let fitted ← getFitted st.is_fitted feature
  if fitted = false then Except.ok true
  else do
    let r ← getRecord st feature
    Except.ok (r.norm_const.isNone && decide (cc ≠ Centering.noCenter))

/-- The centering subtraction of `SHAPDependence.eval` (lines 237-239):
subtract the stored norm constant when centering was requested; subtracting
the non-numeric empty sentinel from a float vector is a TypeError. -/
def centerVals (ys : List ℚ) (cc : Centering) (norm : Option ℚ) :
    Except PyErr (List ℚ) :=
  if cc ≠ Centering.noCenter then
    match norm with
    | some c => Except.ok (ys.map (fun y => y - c))
    | none => Except.error .typeError
  else Except.ok ys

/-- The tail of `SHAPDependence.eval` (lines 232-245), after the optional
refit produced the state `st` and with the instrumentation flag `need`
recording whether the refit branch was taken: assert the lower axis limit
is strictly below the upper; evaluate the mean spline at xs; apply the
centering subtraction; when uncertainty was requested also return the
std-spline values and a zero vector. -/
def shapEvalBody (st : ShapState) (feature : ℕ) (xs : List ℚ)
    (uncertainty : Bool) (cc : Centering) (need : Bool) :
    Except PyErr ShapEvalOut := do
  let ax ← getAxis st.axis_limits feature
  if ¬ ax.1 < ax.2 then Except.error .assertionError else do
  let r ← getRecord st feature
  let ys ← centerVals (xs.map r.spline_mean) cc r.norm_const
  Except.ok
    { state := st
      refitted := need
      result := if uncertainty then
          EvalResult.triple ys (xs.map r.spline_std) (xs.map (fun _ => 0))
        else EvalResult.single ys }

/-- The conditional refit of `SHAPDependence.eval` (line 230): when the
refit condition held, call `self.fit(features=feature,
centering=centering)` with the default point counts of 100; otherwise keep
the state. -/
def maybeRefit (o : ShapOracles) (st : ShapState) (feature : ℕ)
    (centering : PyBoolStr) (need : Bool) : Except PyErr ShapState :=
  if need then shapFit o st (.idx feature) centering (.pts 100) (.pts 100)
  else Except.ok st

/-- src/effector/global_effect_shap.py, `SHAPDependence.eval`
(lines 196-245): normalize centering; when the refit condition holds, fit
the feature; then run the evaluation tail. -/
def shapEval (o : ShapOracles) (st : ShapState) (feature : ℕ) (xs : List ℚ)
    (uncertainty : Bool) (centering : PyBoolStr) : Except PyErr ShapEvalOut := do
  let cc ← prep_centering centering
  let need ← shapNeedsRefit st feature cc
  let st ← maybeRefit o st feature centering need
  shapEvalBody st feature xs uncertainty cc need

/-- The normalized confidence-interval mode for the SHAP plot. -/
inductive ConfidenceInterval where
  | noCI
  | ciStd
  | ciStdErr
  | ciShapValues
  deriving DecidableEq, Repr

/-- Modelled from the spec: `effector.helpers.prep_confidence_interval` is
not under src/.  Spec section 4.5: normalize True to "std" and validate a
string against the recognized set, which for SHAP additionally holds
"shap_values"; anything else is InvalidInput. -/
def prep_confidence_interval : PyBoolStr → Except PyErr ConfidenceInterval
  | .pybool true => Except.ok .ciStd
  | .pybool false => Except.ok .noCI
  | .pystr s =>
      if s = sStd then Except.ok .ciStd
      else if s = sStdErr then Except.ok .ciStdErr
      else if s = sShapValues then Except.ok .ciShapValues
      else Except.error .assertionError

/-- The argument tuple handed to the renderer `vis.plot_shap`; producing it
is the last step of the embedded `plot`, so an `Except.error` outcome means
the method raised before rendering anything. -/
structure ShapPlotCall where
  x : List ℚ
  y : List ℚ
  xx : Option (List ℚ)
  yy : Option (List ℚ)
  y_std : Option (List ℚ)
  confidence_interval : ConfidenceInterval
  avg_output : Option ℚ

/-- The mean curve carried by an eval result (the value `plot` receives
from `eval(..., uncertainty=False, ...)`). -/
def EvalResult.mean : EvalResult → List ℚ
  | .single y => y
  | .triple y _ _ => y

/-- Lines 293-297 of the SHAP plot: the std curve when the mode is "std",
else None; the dict read raises KeyError when the record is absent. -/
def stdCurveOpt (st : ShapState) (feature : ℕ) (x : List ℚ)
    (c : ConfidenceInterval) : Except PyErr (Option (List ℚ)) :=
  if c = ConfidenceInterval.ciStd then
    match st.feature_effect feature with
    | some r => Except.ok (some (x.map r.spline_std))
    | none => Except.error .keyError
  else Except.ok none

/-- Lines 300-304 of the SHAP plot: the stored raw SHAP values when the
mode is "shap_values", else None. -/
def rawYYOpt (st : ShapState) (feature : ℕ) (c : ConfidenceInterval) :
    Except PyErr (Option (List ℚ)) :=
  if c = ConfidenceInterval.ciShapValues then
    match st.feature_effect feature with
    | some r => Except.ok (some r.yy)
    | none => Except.error .keyError
  else Except.ok none

/-- Lines 305-309 of the SHAP plot: the stored raw feature values when the
mode is "shap_values", else None. -/
def rawXXOpt (st : ShapState) (feature : ℕ) (c : ConfidenceInterval) :
    Except PyErr (Option (List ℚ)) :=
  if c = ConfidenceInterval.ciShapValues then
    match st.feature_effect feature with
    | some r => Except.ok (some r.xx)
    | none => Except.error .keyError
  else Except.ok none

/-- Lines 311-314 of the SHAP plot:
`if nof_shap_values != "all" and nof_shap_values < len(xx)` draw
`nof_shap_values` of the raw points without replacement.  When
`nof_shap_values` is an int, the short-circuit `and` evaluates `len(xx)`,
which is a TypeError whenever `xx` is None. -/
def subsampleShapPoints (pick : ℕ → ℕ → List ℕ) (nof_shap_values : NofPoints)
    (xxO yyO : Option (List ℚ)) :
    Except PyErr (Option (List ℚ) × Option (List ℚ)) :=
  match nof_shap_values with
  | .allPts => Except.ok (xxO, yyO)
  | .pts k =>
      match xxO with
      | none => Except.error .typeError
      | some xs' =>
          if k < xs'.length then do
            let idx := pick k xs'.length
            let xx2 ← fancyVals xs' idx
            let yy2 ← fancyVals (yyO.getD []) idx
            Except.ok (some xx2, some yy2)
          else Except.ok (xxO, yyO)

/-- src/effector/global_effect_shap.py, `SHAPDependence.plot`
(lines 247-332): normalize the confidence-interval flag; build the
`nof_axis_points`-point evaluation grid over the axis limits; evaluate the
mean curve through `eval`; collect the optional std curve and the optional
raw SHAP points; run the subsampling step; finally hand everything to the
renderer. -/
def shapPlot (o : ShapOracles) (st : ShapState) (feature : ℕ)
    (ci : PyBoolStr) (centering : PyBoolStr) (nof_axis_points : ℕ)
    (nof_shap_values : NofPoints) (show_avg_output : Bool) :
    Except PyErr ShapPlotCall := do
  let c ← prep_confidence_interval ci
  let ax ← getAxis st.axis_limits feature
  let x := linspace ax.1 ax.2 nof_axis_points
  let ev ← shapEval o st feature x false centering
  let y_std ← stdCurveOpt ev.state feature x c
  let yyO ← rawYYOpt ev.state feature c
  let xxO ← rawXXOpt ev.state feature c
  let p ← subsampleShapPoints o.pick nof_shap_values xxO yyO
  Except.ok
    { x := x
      y := ev.result.mean
      xx := p.1
      yy := p.2
      y_std := y_std
      confidence_interval := c
      avg_output := if show_avg_output then some ev.state.avg_output else none }

/-- Claim-side formulation of the trapezoid rule as an explicit finite sum
over the sample indices, used to state the norm-constant claim
independently of the recursive `trapz`. -/
def trapzSum (y x : List ℚ) : ℚ :=
  ∑ i ∈ Finset.range (x.length - 1),
    (x.getD (i + 1) 0 - x.getD i 0) * (y.getD i 0 + y.getD (i + 1) 0) / 2

/-- The record produced by the legacy
`feature_effect.utils.compute_fe_parameters` and consumed by the closure
`ALE._ale_func`: bin edges, per-bin effects, bin width, estimator variance,
the normalizer z, and the method tag. -/
structure LegacyAleRecord where
  limits : List ℚ
  bin_effect : List ℚ
  dx : ℚ
  bin_estimator_variance : List ℚ
  z : ℚ
  method : String

/-- The collaborators of the legacy ALE code that live outside src/
(feature_effect/utils.py is not in the sources): fixed-size bin edges over
a feature column, per-instance local data effects, and the bin-statistics
record (spec sections 4.2 and 4.9). -/
structure LegacyOracles where
  createFixSizeBins : List ℚ → ℕ → List ℚ
  computeDataEffect : List (List ℚ) → (List (List ℚ) → List ℚ) → List ℚ →
    ℕ → List ℚ
  computeFeParameters : List ℚ → List ℚ → List ℚ → ℕ → LegacyAleRecord

/-- The `alg_params` dict of the legacy API, restricted to the two keys
`compute_ale_parameters` reads; `none` models an absent key. -/
structure LegacyAlgParams where
  nof_bins : Option ℕ
  min_points_per_bin : Option ℕ
  deriving DecidableEq, Repr

/-- src/feature_effect/ale.py, `compute_ale_parameters` (lines 7-34):
bin count defaulting to 30, minimum points per bin defaulting to 10,
fixed-size bin edges over the feature column, local data effects, the
bin-statistics record, tagged with method "fixed-size". -/
def compute_ale_parameters (o : LegacyOracles) (data : List (List ℚ))
    (model : List (List ℚ) → List ℚ) (feature : ℕ) (ap : LegacyAlgParams) :
    LegacyAleRecord :=
  let k := ap.nof_bins.getD 30
  let minPts := ap.min_points_per_bin.getD 10
  let limits := o.createFixSizeBins (column data feature) k
  let dEffect := o.computeDataEffect data model limits feature
  let params := o.computeFeParameters (column data feature) dEffect limits minPts
  { params with method := sFixedSize }

/-- The state of a legacy `ALE` object (src/feature_effect/ale.py,
lines 74-143).  After `__init__` the attributes data_effect,
feature_effect and parameters are None and no ale_params attribute exists
yet (`none` models both).  The per-feature closure stored in
feature_effect is `_ale_func(params)`, fully determined by its captured
record, so both dictionaries are modelled as association lists of the
record keyed by feature index. -/
structure LegacyAleState where
  data : List (List ℚ)
  model : List (List ℚ) → List ℚ
  data_effect : Option (List (List ℚ))
  feature_effect : Option (List (ℕ × LegacyAleRecord))
  parameters : Option Unit
  ale_params : Option (List (ℕ × LegacyAleRecord))

/-- The `features` argument of the legacy `ALE.fit`: the assert at line 127
allows exactly the string "all" or a list. -/
inductive LegacyFeatures where
  | all
  | flist (is : List ℕ)
  deriving DecidableEq, Repr

/-- The fit loop of the legacy `ALE.fit` (lines 132-139): one record per
requested feature, in order, into fresh dictionaries. -/
def aleBuild (o : LegacyOracles) (data : List (List ℚ))
    (model : List (List ℚ) → List ℚ) (ap : LegacyAlgParams) :
    List ℕ → List (ℕ × LegacyAleRecord)
  | [] => []
  | s :: rest =>
      (s, compute_ale_parameters o data model s ap) ::
        aleBuild o data model ap rest

/-- src/feature_effect/ale.py, `ALE.fit` (lines 126-143): normalize "all"
to every column index; build fresh `funcs` and `ale_params` dictionaries
over exactly the requested features; assign both onto the object, REPLACING
whatever a previous fit stored (the source marks this with a TODO to change
it to append). -/
def aleFit (o : LegacyOracles) (st : LegacyAleState)
    (features : LegacyFeatures) (ap : LegacyAlgParams) : LegacyAleState :=
  let fs := match features with
    | .all => List.range (st.data.headD []).length
    | .flist is => is
  let m := aleBuild o st.data st.model ap fs
  { st with feature_effect := some m, ale_params := some m }

/-- Concrete RHALE collaborators for the C3 witness: the binning strategy
always returns the edge array [0, 1]. -/
def rhaleOraclesW : RhaleOracles :=
  { numJac := fun _ _ => [], find_limits := fun _ _ _ _ _ => some [0, 1] }

/-- Concrete RHALE state for the C3 witness: two rows, both inside the axis
limits of the single feature, with the data effect already materialized. -/
def rhaleStateW : RhaleState :=
  { data := [[0], [1]]
    data_effect := some [[5], [7]]
    model := fun _ => []
    model_jac := none
    axis_limits := [(0, 1)]
    dim := 1
    is_fitted := [false]
    method_args := fun _ => none
    feature_effect := fun _ => none }

/-- Concrete SHAP collaborators for the C5 witness: the explainer returns
the data itself as the attribution matrix, the spline fitter the zero
curve. -/
def shapOraclesW5 : ShapOracles :=
  { shapValues := fun _ rows => rows
    spline := fun _ _ => fun _ => 0
    pick := fun _ _ => [] }

/-- Concrete SHAPDependence state for the C5 witness: two rows, one
feature, nothing fitted yet. -/
def shapStateW5 : ShapState :=
  { data := [[0], [1]]
    model := fun _ => []
    axis_limits := [(0, 1)]
    dim := 1
    avg_output := 0
    is_fitted := [false]
    feature_effect := fun _ => none }

/-- Concrete SHAP collaborators for the C7 witness. -/
def shapOraclesW7 : ShapOracles :=
  { shapValues := fun _ rows => rows
    spline := fun _ _ => fun _ => 0
    pick := fun _ _ => [] }

/-- Concrete SHAPDependence state for the C7 witness. -/
def shapStateW7 : ShapState :=
  { data := [[0], [1]]
    model := fun _ => []
    axis_limits := [(0, 1)]
    dim := 1
    avg_output := 0
    is_fitted := [false]
    feature_effect := fun _ => none }

/-- Concrete SHAP collaborators for the C10 witness. -/
def shapOraclesW10 : ShapOracles :=
  { shapValues := fun _ rows => rows
    spline := fun _ _ => fun _ => 0
    pick := fun _ _ => [] }

/-- Concrete SHAPDependence state for the C10 witness. -/
def shapStateW10 : ShapState :=
  { data := [[0], [1]]
    model := fun _ => []
    axis_limits := [(0, 1)]
    dim := 1
    avg_output := 0
    is_fitted := [false]
    feature_effect := fun _ => none }

/-! The theorems settling the claims, in claim order, with their shared
helper lemmas. -/

/-- C1: the claim says that for every 2-D dataset and model callable,
constructing an RHALE or SHAPDependence object succeeds and initializes the
instance state.  The code contradicts it: both subclasses call
`GlobalEffect.__init__` without the leading `method_name` argument, so the
model callable binds to the `data` parameter and the very first statement
`assert data.ndim == 2` raises AttributeError — for every 2-D dataset,
every model callable, every subsampling draw and every choice of the
remaining arguments, both constructors raise. -/
theorem c1_init_always_raises (pick : ℕ → ℕ → List ℕ) (xss : List (List ℚ))
    (f : List (List ℚ) → List ℚ) (mj al de ao fn tn : PyVal) :
    rhaleInit pick (.arr2 xss) (.pyfunc f) mj al de ao fn tn =
        Except.error .attributeError ∧
      shapInit pick (.arr2 xss) (.pyfunc f) al ao fn tn =
        Except.error .attributeError :=
  ⟨rfl, rfl⟩

/-- C2: the claim says `RHALE.eval` returns the accumulated mean-effect
curve (and, with heterogeneity, the std and std-err curves).  The code
contradicts it: RHALE does not override `eval`, and the inherited
`GlobalEffect.eval` body is `raise NotImplementedError`, so for every
state, feature, query array and flag combination the call raises. -/
theorem c2_rhale_eval_not_implemented (st : RhaleState) (feature : ℕ)
    (xs : List ℚ) (heterogeneity : Bool) (centering : PyBoolStr) :
    rhaleEval st feature xs heterogeneity centering =
      Except.error .notImplementedError :=
  rfl

/-- C8: the claim says `prep_dale_fit_params` fails whenever the supplied
`min_points_per_bin` value is not an integer.  The code contradicts it: the
fourth validation block re-checks the type of `max_nof_bins` (always an int
by that point), so the dict `{"min_points_per_bin": "foo"}` is returned
with the defaults filled in and the non-integer value kept, instead of
failing. -/
theorem c8_min_points_type_not_checked :
    prep_dale_fit_params (some ⟨none, none, none, some (.pystr sFoo)⟩) =
      Except.ok
        ⟨some (.pystr sFixed), some (.pyint 100), some (.pyint 20),
          some (.pystr sFoo)⟩ :=
  rfl

/-- C6: `refit(feature, centering)` returns true exactly when the feature
is not yet fitted, or when it is fitted but its recorded centering mode
differs from the requested one and the requested mode is not the
no-centering value False; false in all other cases.  Stated for every
in-range feature whose method-args entry exists whenever it is fitted (the
invariant `fit` maintains). -/
theorem c6_refit_policy (A : List Bool) (M : ℕ → Option PyBoolStr) (f : ℕ)
    (c : PyBoolStr) (b : Bool) (hb : A.get? f = some b)
    (hM : b = true → (M f).isSome) :
    refit A M f c =
      Except.ok (decide (b = false ∨ (c ≠ .pybool false ∧ M f ≠ some c))) := by
  unfold refit
  rw [hb]
  cases b with
  | false => rfl
  | true =>
      by_cases hc : c = .pybool false
      · subst hc
        rfl
      · obtain ⟨r, hr⟩ := Option.isSome_iff_exists.mp (hM rfl)
        rw [hr]
        by_cases hrc : r = c
        · subst hrc
          simp [hc]
          rfl
        · simp [hc, hrc]
          rfl

/-- Witness for C6: a fitted feature recorded with centering
"zero_integral" and a newly requested "zero_start" requires a refit. -/
theorem c6_refit_policy_witness :
    refit [true] (fun _ => some (.pystr sZeroIntegral)) 0 (.pystr sZeroStart) =
      Except.ok true := by
  have h := c6_refit_policy [true] (fun _ => some (.pystr sZeroIntegral)) 0
    (.pystr sZeroStart) true rfl (fun _ => rfl)
  rw [h]
  simp [sZeroIntegral, sZeroStart]

/-- C3: the claim says `RHALE.fit` with a centering mode other than
no-centering computes and stores the normalization constant, marks the
feature fitted and records the centering mode.  The code contradicts it:
whenever the per-feature fitting itself succeeds, the centering branch
executes `self.norm_const[s] = self._compute_norm_const(s, method=centering)`
and raises AttributeError, because no class in the sources defines a
`_compute_norm_const` method (or a `norm_const` attribute); the feature is
never marked fitted. -/
theorem c3_fit_with_centering_raises (o : RhaleOracles) (st : RhaleState)
    (f : ℕ) (bm : BinningMethod) (cRaw : PyBoolStr) (cc : Centering)
    (hprep : prep_centering cRaw = Except.ok cc) (hcc : cc ≠ .noCenter)
    (st1 : RhaleState) (params : AleParamsRec)
    (hfit : rhaleFitFeature o st f bm = Except.ok (st1, params)) :
    rhaleFit o st (.idx f) bm cRaw = Except.error .attributeError := by
  unfold rhaleFit
  rw [hprep]
  show rhaleFitLoop o bm cc st (prep_features (.idx f) st.dim) =
    Except.error .attributeError
  unfold prep_features rhaleFitLoop
  rw [hfit]
  simp [hcc]
  rfl

/-- Witness for C3: on a concrete two-row state whose per-feature fitting
succeeds, fitting feature 0 with centering "zero_start" raises
AttributeError. -/
theorem c3_fit_with_centering_raises_witness :
    prep_centering (.pystr sZeroStart) = Except.ok .zeroStart ∧
      (∃ pr, rhaleFitFeature rhaleOraclesW rhaleStateW 0 .fixed =
        Except.ok pr) ∧
      rhaleFit rhaleOraclesW rhaleStateW (.idx 0) .fixed
        (.pystr sZeroStart) = Except.error .attributeError :=
  ⟨rfl, ⟨_, rfl⟩,
    c3_fit_with_centering_raises rhaleOraclesW rhaleStateW 0 .fixed
      (.pystr sZeroStart) .zeroStart rfl (by decide) _ _ rfl⟩

/-- C4: the claim says `RHALE.fit` restricts to the in-limits rows and
passes aligned data and effect rows to the bin-statistics computation,
succeeding even when some rows fall outside the limits.  The code
contradicts it: `_fit_feature` first drops the out-of-limits rows from
`self.data`, then recomputes the boolean mask on the already-filtered data
and applies it to the unfiltered `self.data_effect`, so on a concrete state
with three rows of which one lies above the upper limit the mask has
length 2, the effect array has 3 rows, and numpy raises IndexError. -/
theorem c4_fit_feature_misaligned_mask :
    rhaleFitFeature
      { numJac := fun _ _ => [], find_limits := fun _ _ _ _ _ => some [0, 1] }
      { data := [[0], [1], [2]]
        data_effect := some [[1], [1], [1]]
        model := fun _ => []
        model_jac := none
        axis_limits := [(0, 1)]
        dim := 1
        is_fitted := [false]
        method_args := fun _ => none
        feature_effect := fun _ => none }
      0 .fixed = Except.error .indexError := by
  rfl

/-- Helper: inverting a successful bind in the `Except` monad. -/
theorem except_bind_ok {α β : Type} {e : Except PyErr α}
    {k : α → Except PyErr β} {b : β} (h : e >>= k = Except.ok b) :
    ∃ a, e = Except.ok a ∧ k a = Except.ok b := by
  cases e with
  | error err => simp [Bind.bind, Except.bind] at h
  | ok a => exact ⟨a, rfl, h⟩

/-- Helper: a bind whose continuation always fails always fails. -/
theorem except_bind_err {α β : Type} (e : Except PyErr α)
    (k : α → Except PyErr β) (h : ∀ a, ∃ err, k a = Except.error err) :
    ∃ err, e >>= k = Except.error err := by
  cases e with
  | error err => exact ⟨err, rfl⟩
  | ok a => exact h a

/-- Helper: a key is present in the map built by the legacy fit loop
exactly when it was one of the requested features. -/
theorem aleBuild_lookup_isSome (o : LegacyOracles) (data : List (List ℚ))
    (model : List (List ℚ) → List ℚ) (ap : LegacyAlgParams) (fs : List ℕ)
    (s : ℕ) :
    ((aleBuild o data model ap fs).lookup s).isSome = true ↔ s ∈ fs := by
  induction fs with
  | nil => simp [aleBuild]
  | cons a rest ih =>
      by_cases h : s = a
      · subst h
        simp [aleBuild, List.lookup]
      · have hba : (s == a) = false := by simpa using h
        simp [aleBuild, List.lookup, hba, ih, h]

/-- C9: calling the legacy `ALE.fit` a second time with a different feature
list replaces the stored feature-effect and parameter maps entirely: after
the first fit the maps hold exactly the first feature list, and after the
second fit they hold exactly the second one — every entry the first call
created for a feature not in the second list is gone (overwrite, not
append). -/
theorem c9_legacy_fit_overwrites (o : LegacyOracles) (st : LegacyAleState)
    (f1 f2 : List ℕ) (a1 a2 : LegacyAlgParams) :
    ∃ m1 m2,
      (aleFit o st (.flist f1) a1).ale_params = some m1 ∧
      (∀ s : ℕ, ((m1.lookup s).isSome = true ↔ s ∈ f1)) ∧
      (aleFit o (aleFit o st (.flist f1) a1) (.flist f2) a2).ale_params =
        some m2 ∧
      (aleFit o (aleFit o st (.flist f1) a1) (.flist f2) a2).feature_effect =
        some m2 ∧
      (∀ s : ℕ, ((m2.lookup s).isSome = true ↔ s ∈ f2)) := by
  refine ⟨aleBuild o st.data st.model a1 f1, _, rfl, ?_, rfl, rfl, ?_⟩
  · intro s
    exact aleBuild_lookup_isSome o st.data st.model a1 f1 s
  · intro s
    exact aleBuild_lookup_isSome o _ _ a2 f2 s

/-- Helper: binding a success is applying the continuation. -/
theorem ok_bind {α β : Type} (a : α) (k : α → Except PyErr β) :
    (Except.ok a >>= k) = k a :=
  rfl

/-- Helper: binding a failure is the failure. -/
theorem error_bind {α β : Type} (e : PyErr) (k : α → Except PyErr β) :
    ((Except.error e : Except PyErr α) >>= k) = Except.error e :=
  rfl

/-- Helper: a successful run of the evaluation tail carries the
instrumentation flag and the state it was given. -/
theorem shapEvalBody_fields (st : ShapState) (f : ℕ) (xs : List ℚ)
    (unc : Bool) (cc : Centering) (need : Bool) (out : ShapEvalOut)
    (h : shapEvalBody st f xs unc cc need = Except.ok out) :
    out.refitted = need ∧ out.state = st := by
  unfold shapEvalBody at h
  obtain ⟨ax, hax, h⟩ := except_bind_ok h
  by_cases hlt : ax.1 < ax.2
  · rw [if_neg (not_not_intro hlt)] at h
    obtain ⟨r, hr, h⟩ := except_bind_ok h
    obtain ⟨ys, hys, h⟩ := except_bind_ok h
    injection h with h
    subst h
    exact ⟨rfl, rfl⟩
  · rw [if_pos hlt] at h
    simp at h

/-- C5: `SHAPDependence.eval` triggers a (re)fit of the feature exactly
when the feature is not yet fitted, or when it is fitted but its stored
norm constant is the empty-value sentinel and centering is requested; in
every other case it evaluates from the already-stored record, leaving the
state unchanged.  Stated for every successful call, every oracle behaviour
and every argument. -/
theorem c5_shap_eval_refit_condition (o : ShapOracles) (st : ShapState)
    (f : ℕ) (xs : List ℚ) (unc : Bool) (cRaw : PyBoolStr) (cc : Centering)
    (hprep : prep_centering cRaw = Except.ok cc)
    (b : Bool) (hb : st.is_fitted.get? f = some b)
    (out : ShapEvalOut)
    (hout : shapEval o st f xs unc cRaw = Except.ok out) :
    (out.refitted = true ↔
      (b = false ∨
        ((∃ r, st.feature_effect f = some r ∧ r.norm_const = none) ∧
          cc ≠ .noCenter))) ∧
    (out.refitted = false → out.state = st) := by
  unfold shapEval at hout
  obtain ⟨cc2, hcc2, hout⟩ := except_bind_ok hout
  rw [hprep] at hcc2
  injection hcc2 with hcc2
  subst hcc2
  obtain ⟨need, hneed, hout⟩ := except_bind_ok hout
  obtain ⟨st2, hst2, hout⟩ := except_bind_ok hout
  obtain ⟨hro, hso⟩ := shapEvalBody_fields st2 f xs unc cc need out hout
  unfold shapNeedsRefit at hneed
  obtain ⟨fitted, hf, hneed⟩ := except_bind_ok hneed
  unfold getFitted at hf
  rw [hb] at hf
  injection hf with hf
  subst hf
  cases b with
  | false =>
      rw [if_pos rfl] at hneed
      injection hneed with hneed
      subst hneed
      rw [hro]
      simp
  | true =>
      rw [if_neg (by decide)] at hneed
      obtain ⟨r0, hr0, hneed⟩ := except_bind_ok hneed
      injection hneed with hneed
      subst hneed
      unfold getRecord at hr0
      cases hfe : st.feature_effect f with
      | none =>
          rw [hfe] at hr0
          simp at hr0
      | some r1 =>
          rw [hfe] at hr0
          injection hr0 with hr0
          subst hr0
          constructor
          · rw [hro]
            simp [hfe, Option.isNone_iff_eq_none]
          · intro hfalse
            rw [hro] at hfalse
            rw [hfalse] at hst2
            unfold maybeRefit at hst2
            rw [if_neg (by simp)] at hst2
            injection hst2 with hst2
            rw [hso, ← hst2]

/-- Witness for C5: on a concrete unfitted state, a plain uncentered eval
triggers the fit. -/
theorem c5_shap_eval_refit_condition_witness :
    ∃ out, shapEval shapOraclesW5 shapStateW5 0 [0] false (.pybool false) =
      Except.ok out ∧ out.refitted = true := by
  refine ⟨_, rfl, ?_⟩
  exact ((c5_shap_eval_refit_condition shapOraclesW5 shapStateW5 0 [0] false
    (.pybool false) .noCenter rfl false rfl _ rfl).1).mpr (Or.inl rfl)

/-- Helper: outside the "shap_values" mode the raw feature values stay
None. -/
theorem rawXXOpt_of_ne (st : ShapState) (f : ℕ) (c : ConfidenceInterval)
    (hc : c ≠ ConfidenceInterval.ciShapValues) :
    rawXXOpt st f c = Except.ok none := by
  unfold rawXXOpt
  rw [if_neg hc]

/-- C10: for every SHAPDependence state, calling `plot` with
`nof_shap_values` set to any integer while the confidence-interval mode is
not "shap_values" raises an exception before anything reaches the renderer:
the raw SHAP point array is None in that branch, yet
`nof_shap_values < len(xx)` still takes its length.  Stated for every
oracle behaviour, state and argument combination. -/
theorem c10_plot_raises_before_render (o : ShapOracles) (st : ShapState)
    (f : ℕ) (ci centering : PyBoolStr) (nof_axis_points : ℕ) (k : ℕ)
    (show_avg_output : Bool) (c : ConfidenceInterval)
    (hprep : prep_confidence_interval ci = Except.ok c)
    (hc : c ≠ ConfidenceInterval.ciShapValues) :
    ∃ e, shapPlot o st f ci centering nof_axis_points (.pts k)
      show_avg_output = Except.error e := by
  unfold shapPlot
  rw [hprep, ok_bind]
  apply except_bind_err
  intro ax
  dsimp only
  apply except_bind_err
  intro ev
  apply except_bind_err
  intro ystd
  apply except_bind_err
  intro yyO
  rw [rawXXOpt_of_ne ev.state f c hc, ok_bind]
  rw [show subsampleShapPoints o.pick (.pts k) none yyO =
    Except.error .typeError from rfl]
  rw [error_bind]
  exact ⟨_, rfl⟩

/-- Witness for C10: a concrete fitted-free plot call with an integer
`nof_shap_values` and mode False fails before rendering. -/
theorem c10_plot_raises_before_render_witness :
    ∃ e, shapPlot shapOraclesW10 shapStateW10 0 (.pybool false)
      (.pybool false) 3 (.pts 1) false = Except.error e :=
  c10_plot_raises_before_render shapOraclesW10 shapStateW10 0 (.pybool false)
    (.pybool false) 3 1 false .noCI rfl (by decide)

/-- Helper: the recursive trapezoid rule equals its closed-sum form on
equal-length samples. -/
theorem trapz_eq_trapzSum (y x : List ℚ) (h : y.length = x.length) :
    trapz y x = trapzSum y x := by
  induction x generalizing y with
  | nil =>
      cases y with
      | nil => simp [trapz, trapzSum]
      | cons a ys => simp at h
  | cons x1 xs ih =>
      cases y with
      | nil => simp at h
      | cons y1 ys =>
          cases xs with
          | nil =>
              cases ys with
              | nil => simp [trapz, trapzSum]
              | cons b bs => simp at h
          | cons x2 xs2 =>
              cases ys with
              | nil => simp at h
              | cons y2 ys2 =>
                  have hrec : trapz (y1 :: y2 :: ys2) (x1 :: x2 :: xs2) =
                      (x2 - x1) * (y1 + y2) / 2 +
                        trapz (y2 :: ys2) (x2 :: xs2) := rfl
                  rw [hrec, ih (y2 :: ys2) (by simpa using h)]
                  unfold trapzSum
                  simp only [List.length_cons, Nat.add_sub_cancel]
                  rw [Finset.sum_range_succ']
                  simp only [List.getD_cons_succ, List.getD_cons_zero]
                  ring

/-- Helper: in a list sorted by `≤`, every element is at most the last
one. -/
theorem sorted_le_getLastQ (l : List ℚ) :
    l.Sorted (· ≤ ·) → ∀ xl : ℚ, l.getLast? = some xl → ∀ v ∈ l, v ≤ xl := by
  induction l with
  | nil =>
      intro _ xl hxl
      simp at hxl
  | cons a t ih =>
      intro hl xl hxl v hv
      cases t with
      | nil =>
          simp at hxl
          subst hxl
          simp at hv
          subst hv
          exact le_refl v
      | cons b t2 =>
          rw [List.getLast?_cons_cons] at hxl
          rcases List.mem_cons.mp hv with rfl | hv2
          · exact List.rel_of_sorted_cons hl xl
              (List.mem_of_getLast?_eq_some hxl)
          · exact ih hl.of_cons xl hxl v hv2

/-- Helper: the feature-value list produced by the SHAP fitting core is
sorted ascending (it is the argsort-reordered feature column). -/
theorem shapFitCore_sorted (o : ShapOracles) (st : ShapState) (f : ℕ)
    (pfs : NofPoints) (xx yy : List ℚ) (sm ss : ℚ → ℚ)
    (h : shapFitCore o st f pfs = Except.ok (xx, yy, sm, ss)) :
    xx.Sorted (· ≤ ·) := by
  unfold shapFitCore at h
  obtain ⟨ax, hax, h⟩ := except_bind_ok h
  dsimp only at h
  obtain ⟨d2, hd2, h⟩ := except_bind_ok h
  injection h with h
  injection h with h1 h
  subst h1
  have hs : (sortByFst ((column d2 f).zip
      (column (o.shapValues st.model d2) f))).Sorted byFst :=
    List.sorted_insertionSort byFst _
  exact @List.Pairwise.map ℚ (ℚ × ℚ) byFst _ (· ≤ ·) (fun p => p.1)
    (fun a b hab => hab) hs

/-- C7: the norm constant stored by a SHAPDependence feature fit is: under
"zero_integral", the trapezoid integral of the mean spline over a
`points_for_centering`-point uniform grid spanning the observed feature
range, divided by the range width; under "zero_start", the mean spline at
the smallest observed feature value; otherwise the empty-value sentinel.
`x0` and `xl` are the first and last sorted feature values, and the final
conjunct shows they are the observed minimum and maximum. -/
theorem c7_shap_norm_const (o : ShapOracles) (st : ShapState) (f : ℕ)
    (cc : Centering) (pfs : NofPoints) (k : ℕ)
    (xx yy : List ℚ) (sm ss : ℚ → ℚ)
    (hcore : shapFitCore o st f pfs = Except.ok (xx, yy, sm, ss))
    (x0 : ℚ) (hx0 : listHead xx = Except.ok x0)
    (xl : ℚ) (hxl : listLast xx = Except.ok xl) :
    ∃ r, shapFitFeature o st f cc pfs (.pts k) = Except.ok r ∧
      r.norm_const = (match cc with
        | .zeroIntegral =>
            some (trapzSum ((linspace x0 xl k).map sm) (linspace x0 xl k) /
              (xl - x0))
        | .zeroStart => some (sm x0)
        | .noCenter => none) ∧
      (∀ v ∈ xx, x0 ≤ v ∧ v ≤ xl) := by
  have hsorted := shapFitCore_sorted o st f pfs xx yy sm ss hcore
  have hxx : ∃ t, xx = x0 :: t := by
    cases xx with
    | nil => simp [listHead] at hx0
    | cons a t =>
        unfold listHead at hx0
        injection hx0 with h
        exact ⟨t, by rw [h]⟩
  obtain ⟨t, hxxeq⟩ := hxx
  have hlastq : xx.getLast? = some xl := by
    unfold listLast at hxl
    cases hq : xx.getLast? with
    | none => rw [hq] at hxl; simp at hxl
    | some v => rw [hq] at hxl; injection hxl with h; rw [h]
  have hbound : ∀ v ∈ xx, x0 ≤ v ∧ v ≤ xl := by
    intro v hv
    constructor
    · rw [hxxeq] at hv hsorted
      rcases List.mem_cons.mp hv with rfl | hv2
      · exact le_refl v
      · exact List.rel_of_sorted_cons hsorted v hv2
    · exact sorted_le_getLastQ xx hsorted xl hlastq v hv
  unfold shapFitFeature
  rw [hcore, ok_bind]
  dsimp only
  cases cc with
  | zeroIntegral =>
      rw [hx0]
      rw [hxl]
      simp only [ok_bind]
      refine ⟨_, rfl, ?_, hbound⟩
      show some (trapz ((linspace x0 xl k).map sm) (linspace x0 xl k) /
        (xl - x0)) = _
      rw [trapz_eq_trapzSum _ _ (by simp)]
  | zeroStart =>
      rw [hx0]
      simp only [ok_bind]
      exact ⟨_, rfl, rfl, hbound⟩
  | noCenter =>
      exact ⟨_, rfl, rfl, hbound⟩

/-- Witness for C7: a concrete zero-integral fit on two rows stores a
non-sentinel norm constant. -/
theorem c7_shap_norm_const_witness :
    ∃ r, shapFitFeature shapOraclesW7 shapStateW7 0 .zeroIntegral .allPts
      (.pts 2) = Except.ok r ∧ r.norm_const ≠ none := by
  obtain ⟨r, hr, hnorm, -⟩ := c7_shap_norm_const shapOraclesW7 shapStateW7 0
    .zeroIntegral .allPts 2 _ _ _ _ rfl _ rfl _ rfl
  refine ⟨r, hr, ?_⟩
  rw [hnorm]
  simp
